import Mathlib

/-!
# Verification of the cache-aside layer and rate limiter of
# `deepsearch-agentic-system-backend`

Shallow embedding of `src/config/redis_cache.py` (class `RedisCache`, helper
`get_cached_or_fetch`) and `src/config/security.py` (class
`SecurityMiddleware`: `get_client_ip`, `check_rate_limit`,
`add_rate_limit_headers`; decorator `ip_whitelist`), together with the parts
of `src/config/settings.py` they read.

Modelling conventions:
* Python values that can flow through the cache are modelled by `PyVal`
  (floats are omitted: no claim involves them).
* Stored bytes are modelled semantically by `Blob`: a blob is either the
  JSON text of a JSON value, the pickle serialization of a Python value,
  or foreign plain text written by another writer.
* Python exceptions are modelled by `PyExc`; a Python function that can
  raise is an `Except PyExc` value.  A `try/except` clause is a `match`
  on that value that handles exactly the exception classes the source
  names.
* The Redis client is modelled by `Store`: an association list from raw
  (already-namespaced) keys to entries plus a reachability flag `up`.
  When `up = false` every store operation raises `ConnectionError`
  (the lazy `connect` in `_ensure_connection` fails and re-raises).
  Passage of time is not modelled: `ttl` returns the TTL the entry was
  written with, i.e. all operations happen inside one window.
* Each cache-manager operation also records, in `touched`, the raw key or
  pattern string it passes to the store client, so that key-namespacing
  claims can be stated.
-/

set_option autoImplicit false

namespace DeepSearch

/-- JSON values, as produced by `json.dumps` / consumed by `json.loads`.
Numbers are integers: no claim involves floats. Objects are ordered
key-value lists; the Python dicts that reach `json.dumps` in this code have
unique keys. -/
inductive JVal where
  | null
  | bool (b : Bool)
  | num (n : Int)
  | str (s : String)
  | arr (xs : List JVal)
  | obj (kvs : List (String × JVal))

/-- Python runtime values that can be passed to `RedisCache.set` /
returned from `RedisCache.get`.  `obj` stands for structured objects that
`json.dumps` rejects but `pickle.dumps` accepts (sets, custom class
instances, ...); the tag only serves to distinguish them. `pybytes` is a
`bytes` value. Floats are omitted (no claim involves them). -/
inductive PyVal where
  | none
  | bool (b : Bool)
  | int (n : Int)
  | str (s : String)
  | list (xs : List PyVal)
  | tuple (xs : List PyVal)
  | dict (kvs : List (PyVal × PyVal))
  | pybytes (bs : List Nat)
  | obj (tag : Nat)

/-- Python exception classes that appear in the embedded code. -/
inductive PyExc where
  | jsonDecodeError
  | unicodeDecodeError
  | typeError
  | unpicklingError
  | redisError
  | connectionError
  | attributeError
  | httpException (status : Nat) (detail : String)
deriving DecidableEq

/-- The raw bytes held by the store under one key, viewed semantically:
either the JSON text produced by `json.dumps` of a JSON value, or the
pickle serialization of a Python value (default pickle protocol, whose
output always starts with byte `0x80` and is therefore never valid UTF-8),
or foreign plain text written by another writer before this codec existed
(modelled as text that is not valid JSON and not a pickle payload). -/
inductive Blob where
  | json (j : JVal)
  | pickle (v : PyVal)
  | text (s : String)

/-! ## The codec (`RedisCache.set` lines 117-124, `RedisCache.get` lines 92-99) -/

/-- Dict keys accepted by `json.dumps`: strings, ints, bools and `None`
are coerced to strings; every other key type raises `TypeError`. -/
def jsonKeyOk : PyVal → Bool
  | .str _ => true
  | .int _ => true
  | .bool _ => true
  | .none => true
  | _ => false

mutual

/-- Whether `json.dumps(v)` succeeds.  `json.dumps` accepts `None`, bools,
ints, strings, lists, tuples (serialized as arrays) and dicts whose keys
are strings, ints, bools or `None` (coerced to strings); it raises
`TypeError` on `bytes`, sets and other objects. -/
def jsonDumpable : PyVal → Bool
  | .none => true
  | .bool _ => true
  | .int _ => true
  | .str _ => true
  | .list xs => jsonDumpableList xs
  | .tuple xs => jsonDumpableList xs
  | .dict kvs => jsonDumpableKVs kvs
  | .pybytes _ => false
  | .obj _ => false

/-- `jsonDumpable` on every element of a list. -/
def jsonDumpableList : List PyVal → Bool
  | [] => true
  | x :: xs => jsonDumpable x && jsonDumpableList xs

/-- `jsonDumpable` on every value and `jsonKeyOk` on every key of a dict. -/
def jsonDumpableKVs : List (PyVal × PyVal) → Bool
  | [] => true
  | kv :: rest => (jsonKeyOk kv.1 && jsonDumpable kv.2) && jsonDumpableKVs rest

end

/-- How `json.dumps` renders a non-string dict key as a string. -/
def keyToString : PyVal → String
  | .str s => s
  | .int n => toString n
  | .bool true => "true"
  | .bool false => "false"
  | _ => "null"

mutual

/-- The JSON value `json.dumps(v)` writes (meaningful when
`jsonDumpable v`): tuples become arrays, dict keys become strings. -/
def pyToJson : PyVal → JVal
  | .none => .null
  | .bool b => .bool b
  | .int n => .num n
  | .str s => .str s
  | .list xs => .arr (pyToJsonList xs)
  | .tuple xs => .arr (pyToJsonList xs)
  | .dict kvs => .obj (pyToJsonKVs kvs)
  | .pybytes _ => .null
  | .obj _ => .null

/-- `pyToJson` on every element of a list. -/
def pyToJsonList : List PyVal → List JVal
  | [] => []
  | x :: xs => pyToJson x :: pyToJsonList xs

/-- `pyToJson` on a dict's entries, coercing keys to strings. -/
def pyToJsonKVs : List (PyVal × PyVal) → List (String × JVal)
  | [] => []
  | kv :: rest => (keyToString kv.1, pyToJson kv.2) :: pyToJsonKVs rest

end

mutual

/-- The Python value `json.loads` builds from a JSON value: arrays become
lists, object keys are strings. -/
def jsonToPy : JVal → PyVal
  | .null => .none
  | .bool b => .bool b
  | .num n => .int n
  | .str s => .str s
  | .arr xs => .list (jsonToPyList xs)
  | .obj kvs => .dict (jsonToPyKVs kvs)

/-- `jsonToPy` on every element of an array. -/
def jsonToPyList : List JVal → List PyVal
  | [] => []
  | x :: xs => jsonToPy x :: jsonToPyList xs

/-- `jsonToPy` on an object's entries; keys come back as Python strings. -/
def jsonToPyKVs : List (String × JVal) → List (PyVal × PyVal)
  | [] => []
  | kv :: rest => (PyVal.str kv.1, jsonToPy kv.2) :: jsonToPyKVs rest

end

/-- `json.loads(blob)`.  On a JSON blob it succeeds.  On a pickle blob the
bytes start with `0x80` (every default-protocol pickle does), so the
UTF-8 decode that `json.loads` performs on `bytes` input raises
`UnicodeDecodeError` — which is a `ValueError` but not a
`json.JSONDecodeError`.  On foreign non-JSON text it raises
`json.JSONDecodeError`. -/
def jsonLoads : Blob → Except PyExc PyVal
  | .json j => .ok (jsonToPy j)
  | .pickle _ => .error .unicodeDecodeError
  | .text _ => .error .jsonDecodeError

/-- `pickle.loads(blob)`: succeeds exactly on pickle payloads; JSON text
and foreign plain text do not start with a valid pickle opcode stream and
raise `pickle.UnpicklingError`. -/
def pickleLoads : Blob → Except PyExc PyVal
  | .pickle v => .ok v
  | .json _ => .error .unpicklingError
  | .text _ => .error .unpicklingError

/-- `value.decode('utf-8')` on the stored bytes (line 99).  Only reachable
for foreign text blobs: JSON blobs already succeeded at the JSON stage and
pickle blobs never get past it (they raise `UnicodeDecodeError` there). -/
def utf8Decode : Blob → PyVal
  | .text s => .str s
  | .json _ => .str ""
  | .pickle _ => .str ""

/-- Lines 96-99 of `redis_cache.py`: `try: return pickle.loads(value)
except (pickle.UnpicklingError, TypeError): return value.decode('utf-8')`.
Any other exception propagates. -/
def pickleStage (b : Blob) : Except PyExc PyVal :=
  match pickleLoads b with
  | .ok v => .ok v
  | .error .unpicklingError => .ok (utf8Decode b)
  | .error .typeError => .ok (utf8Decode b)
  | .error e => .error e

/-- Lines 92-99 of `redis_cache.py`: `try: return json.loads(value)
except (json.JSONDecodeError, TypeError): <pickle stage>`.  Note that
`UnicodeDecodeError` (raised by `json.loads` on non-UTF-8 bytes, i.e. on
every default-protocol pickle payload) is caught by neither clause and
propagates. -/
def deserializeChain (b : Blob) : Except PyExc PyVal :=
  match jsonLoads b with
  | .ok v => .ok v
  | .error .jsonDecodeError => pickleStage b
  | .error .typeError => pickleStage b
  | .error e => .error e

/-- Lines 117-124 of `redis_cache.py`: `try: serialized_value =
json.dumps(value) except (TypeError, ValueError): serialized_value =
pickle.dumps(value)` (with `serialize=True`, its default at every call
site). -/
def encodeValue (v : PyVal) : Blob :=
  if jsonDumpable v then .json (pyToJson v) else .pickle v

/-! ## Settings (`src/config/settings.py`) -/

/-- The fields of `Settings` that the cache layer and rate limiter read.
Read once at startup, immutable thereafter. -/
structure Settings where
  CACHE_TTL : Int
  CACHE_PREFIX : String
  RATE_LIMIT_PER_MINUTE : Int
  RATE_LIMIT_PER_HOUR : Int
deriving DecidableEq

/-- The default values declared in `settings.py` (`CACHE_TTL=3600`,
`CACHE_PREFIX="deepsearch:"`, `RATE_LIMIT_PER_MINUTE=60`,
`RATE_LIMIT_PER_HOUR=1000`). -/
def defaultSettings : Settings :=
  { CACHE_TTL := 3600
    CACHE_PREFIX := "deepsearch:"
    RATE_LIMIT_PER_MINUTE := 60
    RATE_LIMIT_PER_HOUR := 1000 }

/-! ## The Redis store -/

/-- One stored entry: the raw bytes plus the TTL it was written with
(every write in this subsystem goes through `SETEX` or `EXPIRE`, so every
entry has one).  Time passage is not modelled — all the claims below are
about operations inside one window — so `TTL key` on a live entry returns
the TTL it was last given. -/
structure Entry where
  blob : Blob
  ttl : Int

/-- The external Redis server as seen through `redis.asyncio`: an
association list from raw key strings to entries (first binding wins),
plus a reachability flag.  When `up = false`, `_ensure_connection`'s lazy
`connect()` fails and re-raises `ConnectionError`, so every store
operation raises `ConnectionError`. -/
structure Store where
  data : List (String × Entry)
  up : Bool

/-- First-match association-list lookup. -/
def lookupKV : List (String × Entry) → String → Option Entry
  | [], _ => Option.none
  | kv :: rest, k => if kv.1 = k then some kv.2 else lookupKV rest k

/-- Bind `k` to `e`, shadowing/removing any previous binding. -/
def setKV (l : List (String × Entry)) (k : String) (e : Entry) :
    List (String × Entry) :=
  (k, e) :: l.filter fun kv => kv.1 ≠ k

/-- Remove the binding of `k`. -/
def delKV (l : List (String × Entry)) (k : String) : List (String × Entry) :=
  l.filter fun kv => kv.1 ≠ k

/-- Redis `KEYS` glob matching, restricted to the `*` wildcard (the only
metacharacter appearing in the patterns this code sends: caller patterns
such as `"user:*"` and the namespace pattern `CACHE_PREFIX ++ "*"`). -/
def globMatchL : List Char → List Char → Bool
  | [], [] => true
  | '*' :: ps, [] => globMatchL ps []
  | '*' :: ps, c :: cs => globMatchL ps (c :: cs) || globMatchL ('*' :: ps) cs
  | p :: ps, c :: cs => p == c && globMatchL ps cs
  | _ :: _, [] => false
  | [], _ :: _ => false
termination_by ps cs => (ps.length, cs.length)

/-- `globMatchL` on strings: does `key` match glob `pat`? -/
def globMatch (pat key : String) : Bool :=
  globMatchL pat.toList key.toList

/-- `GET key`: the stored bytes, or `None` if absent. -/
def storeGet (st : Store) (k : String) : Except PyExc (Option Blob) :=
  if st.up then .ok ((lookupKV st.data k).map Entry.blob)
  else .error .connectionError

/-- `SETEX key ttl value`: write with expiry.  Redis rejects a
non-positive expire time with an error reply (`RedisError` in the
client). -/
def storeSetex (st : Store) (k : String) (t : Int) (b : Blob) :
    Except PyExc Store :=
  if ¬st.up then .error .connectionError
  else if t ≤ 0 then .error .redisError
  else .ok { st with data := setKV st.data k ⟨b, t⟩ }

/-- `DEL key`: returns how many keys were removed (0 or 1 here). -/
def storeDelete (st : Store) (k : String) : Except PyExc (Store × Int) :=
  if ¬st.up then .error .connectionError
  else
    match lookupKV st.data k with
    | some _ => .ok ({ st with data := delKV st.data k }, 1)
    | Option.none => .ok (st, 0)

/-- `EXISTS key`: returns the number of existing keys (0 or 1 here). -/
def storeExists (st : Store) (k : String) : Except PyExc Int :=
  if ¬st.up then .error .connectionError
  else
    match lookupKV st.data k with
    | some _ => .ok 1
    | Option.none => .ok 0

/-- `EXPIRE key ttl`: returns whether the key existed.  A non-positive
`ttl` deletes the key immediately. -/
def storeExpire (st : Store) (k : String) (t : Int) :
    Except PyExc (Store × Bool) :=
  if ¬st.up then .error .connectionError
  else
    match lookupKV st.data k with
    | Option.none => .ok (st, false)
    | some e =>
      if t ≤ 0 then .ok ({ st with data := delKV st.data k }, true)
      else .ok ({ st with data := setKV st.data k { e with ttl := t } }, true)

/-- `TTL key`: `-2` when the key does not exist; otherwise the remaining
TTL (here: the TTL the entry was written with, since time passage is not
modelled; every entry in this model has a TTL so the `-1` "no expiry"
reply does not arise). -/
def storeTtl (st : Store) (k : String) : Except PyExc Int :=
  if ¬st.up then .error .connectionError
  else
    match lookupKV st.data k with
    | Option.none => .ok (-2)
    | some e => .ok e.ttl

/-- `KEYS pattern`: every existing key matching the glob. -/
def storeKeys (st : Store) (pat : String) : Except PyExc (List String) :=
  if st.up then .ok ((st.data.map Prod.fst).filter (globMatch pat))
  else .error .connectionError

/-- `DEL k1 k2 ...`: delete many keys, returning the count removed. -/
def storeDeleteMany (st : Store) (ks : List String) :
    Except PyExc (Store × Int) :=
  if ¬st.up then .error .connectionError
  else
    .ok (ks.foldl
      (fun acc k =>
        match lookupKV acc.1.data k with
        | some _ => ({ acc.1 with data := delKV acc.1.data k }, acc.2 + 1)
        | Option.none => acc)
      (st, 0))

/-! ## The cache manager (`class RedisCache`, redis_cache.py lines 16-212) -/

/-- Outcome of one `RedisCache` method call: the Python return value (or
the exception that escaped), the store afterwards, and `touched` — the raw
key/pattern strings the method passed to the store client, recorded so
that key-namespacing claims can be stated.  (Keys the *store* handed back,
e.g. the `KEYS` reply that `clear_pattern` forwards to `DEL`, are not
caller-derived and are not recorded.) -/
structure OpOut (α : Type) where
  res : α
  st : Store
  touched : List String

/-- `RedisCache._make_key` (lines 78-80): prepend the namespace. -/
def _make_key (S : Settings) (key : String) : String :=
  S.CACHE_PREFIX ++ key

/-- `RedisCache.get` (lines 82-103).  `try:` ensure connection, `GET`, on
`None` return `default`, else run the deserialization chain; `except
(RedisError, ConnectionError): return default`.  An exception from the
deserialization chain that is neither of those (the `UnicodeDecodeError`
case) escapes to the caller. -/
def cacheGet (S : Settings) (st : Store) (key : String) (dflt : PyVal) :
    OpOut (Except PyExc PyVal) :=
  let cache_key := _make_key S key
  let r : Except PyExc PyVal :=
    match storeGet st cache_key with
    | .error _ => .ok dflt
    | .ok Option.none => .ok dflt
    | .ok (some b) => deserializeChain b
  ⟨r, st, [cache_key]⟩

/-- `RedisCache.set` (lines 105-132), with `serialize=True` (its default;
no call site passes `False`).  Encode via the codec, then
`ttl = ttl or settings.CACHE_TTL` — note Python `or`: both `None` *and*
`0` fall back to the default — then `SETEX`.  Returns whether the write
succeeded; `except (RedisError, ConnectionError): return False`. -/
def cacheSet (S : Settings) (st : Store) (key : String) (value : PyVal)
    (ttl : Option Int) : OpOut Bool :=
  let cache_key := _make_key S key
  let serialized_value := encodeValue value
  let t : Int :=
    match ttl with
    | some n => if n = 0 then S.CACHE_TTL else n
    | Option.none => S.CACHE_TTL
  let p :=
    match storeSetex st cache_key t serialized_value with
    | .ok s2 => (true, s2)
    | .error _ => (false, st)
  ⟨p.1, p.2, [cache_key]⟩

/-- `RedisCache.delete` (lines 134-144): `bool(DEL key)`; `False` on
error. -/
def cacheDelete (S : Settings) (st : Store) (key : String) : OpOut Bool :=
  let cache_key := _make_key S key
  let p :=
    match storeDelete st cache_key with
    | .ok (s2, n) => (n != 0, s2)
    | .error _ => (false, st)
  ⟨p.1, p.2, [cache_key]⟩

/-- `RedisCache.exists` (lines 146-156): `bool(EXISTS key)`; `False` on
error. -/
def cacheExists (S : Settings) (st : Store) (key : String) : OpOut Bool :=
  let cache_key := _make_key S key
  let res :=
    match storeExists st cache_key with
    | .ok n => n != 0
    | .error _ => false
  ⟨res, st, [cache_key]⟩

/-- `RedisCache.expire` (lines 158-168): `bool(EXPIRE key ttl)`; `False`
on error. -/
def cacheExpire (S : Settings) (st : Store) (key : String) (ttl : Int) :
    OpOut Bool :=
  let cache_key := _make_key S key
  let p :=
    match storeExpire st cache_key ttl with
    | .ok (s2, b) => (b, s2)
    | .error _ => (false, st)
  ⟨p.1, p.2, [cache_key]⟩

/-- `RedisCache.ttl` (lines 170-180): the raw `TTL key` reply, returned
unchanged (so `-2` for an absent key); `-1` on error. -/
def cacheTtl (S : Settings) (st : Store) (key : String) : OpOut Int :=
  let cache_key := _make_key S key
  let res :=
    match storeTtl st cache_key with
    | .ok n => n
    | .error _ => -1
  ⟨res, st, [cache_key]⟩

/-- `RedisCache.clear_pattern` (lines 182-196): `KEYS` on the namespaced
pattern, `DEL` the reply if non-empty, return the count deleted; `0` on
error. -/
def cacheClearPattern (S : Settings) (st : Store) (pattern : String) :
    OpOut Int :=
  let cache_pattern := _make_key S pattern
  let p :=
    match storeKeys st cache_pattern with
    | .error _ => ((0 : Int), st)
    | .ok keys =>
      if keys ≠ [] then
        match storeDeleteMany st keys with
        | .ok (s2, n) => (n, s2)
        | .error _ => (0, st)
      else (0, st)
  ⟨p.1, p.2, [cache_pattern]⟩

/-- `RedisCache.clear_all` (lines 198-212): `KEYS` on
`CACHE_PREFIX ++ "*"`, `DEL` the reply if non-empty, return `True`;
`False` on error. -/
def cacheClearAll (S : Settings) (st : Store) : OpOut Bool :=
  let pattern := S.CACHE_PREFIX ++ "*"
  let p :=
    match storeKeys st pattern with
    | .error _ => (false, st)
    | .ok keys =>
      if keys ≠ [] then
        match storeDeleteMany st keys with
        | .ok (s2, _) => (true, s2)
        | .error _ => (false, st)
      else (true, st)
  ⟨p.1, p.2, [pattern]⟩

/-- `get_cached_or_fetch` (redis_cache.py lines 281-301), specialised to a
pure `fetch_func` that returns `fetch` (the claims only concern pure
compute functions): `cached = get(key)`; if not `None` return it; else
call the function, `set(key, value, ttl)` (result ignored), return the
value.  There is no `try` here, so an exception escaping `get` escapes
this function.  The `Bool` records whether `fetch_func` was invoked. -/
def get_cached_or_fetch (S : Settings) (st : Store) (key : String)
    (fetch : PyVal) (ttl : Option Int) :
    Except PyExc (PyVal × Store) × Bool :=
  match (cacheGet S st key PyVal.none).res with
  | .error e => (.error e, false)
  | .ok cached =>
    match cached with
    | PyVal.none =>
      let o := cacheSet S st key fetch ttl
      (.ok (fetch, o.st), true)
    | v => (.ok (v, st), false)

/-- Two sequential calls of `get_cached_or_fetch` on the same key with the
same pure compute function, counting how many times the compute function
ran.  If the first call raises, the store is unchanged and the second call
is made on it as-is. -/
def get_cached_or_fetch_twice (S : Settings) (st : Store) (key : String)
    (fetch : PyVal) (ttl : Option Int) : Nat :=
  let c1 := get_cached_or_fetch S st key fetch ttl
  let st1 := match c1.1 with
             | .ok p => p.2
             | .error _ => st
  let c2 := get_cached_or_fetch S st1 key fetch ttl
  (if c1.2 then 1 else 0) + (if c2.2 then 1 else 0)

/-! ## The security middleware (`src/config/security.py`) -/

/-- The parts of a FastAPI `Request` that `get_client_ip` reads:
`request.headers.get("X-Forwarded-For")`,
`request.headers.get("X-Real-IP")` (absent header → `None`), and
`request.client.host` (`request.client` may be `None`). -/
structure Request where
  x_forwarded_for : Option String
  x_real_ip : Option String
  client : Option String

/-- Python truthiness of `headers.get(...)`: `None` and the empty string
are falsy. -/
def truthy : Option String → Bool
  | some s => s ≠ ""
  | Option.none => false

/-- `SecurityMiddleware.get_client_ip` (security.py lines 70-83):
`if forwarded_for: return forwarded_for.split(",")[0].strip()`;
`if real_ip: return real_ip`;
`return request.client.host if request.client else "unknown"`. -/
def get_client_ip (req : Request) : String :=
  if truthy req.x_forwarded_for then
    (((req.x_forwarded_for.getD "").splitOn ",").headD "").trim
  else if truthy req.x_real_ip then
    req.x_real_ip.getD ""
  else
    match req.client with
    | some h => h
    | Option.none => "unknown"

/-- Modelled from the spec's words for the claim about client-identifier
resolution: "the first comma-separated entry of the forwarded-for header
if present, else the real-IP header if present, else the transport-level
peer address if available, else the literal string `unknown`".  The first
entry of an HTTP list-valued header is read with its surrounding
whitespace removed. -/
def claimClientIp (req : Request) : String :=
  match req.x_forwarded_for with
  | some s => ((s.splitOn ",").headD "").trim
  | Option.none =>
    match req.x_real_ip with
    | some s => s
    | Option.none =>
      match req.client with
      | some h => h
      | Option.none => "unknown"

/-- `count >= limit` between the value `get` returned and an int setting.
In Python, `int >= int` and `bool >= int` (a `bool` is an `int`) compare
numerically; ordering any other type against an `int` raises
`TypeError`. -/
def pyGeInt (v : PyVal) (n : Int) : Except PyExc Bool :=
  match v with
  | .int m => .ok (decide (m ≥ n))
  | .bool b => .ok (decide ((if b then (1 : Int) else 0) ≥ n))
  | _ => .error .typeError

/-- The `try:` body of `SecurityMiddleware.check_rate_limit` (security.py
lines 87-112).  Read the minute counter (default 0), deny if it reached
`RATE_LIMIT_PER_MINUTE`; read the hour counter, deny if it reached
`RATE_LIMIT_PER_HOUR`; otherwise increment both counters — but
`redis_cache.increment` is not a method of `RedisCache` (no such
attribute exists anywhere in the repository), so the attribute access
`redis_cache.increment` raises `AttributeError` before any store write,
and the `expire` calls on lines 109-110 are never reached. -/
def check_rate_limit_body (S : Settings) (st : Store) (client_ip : String) :
    Except PyExc (Bool × Store) :=
  let minute_key := "rate_limit:minute:" ++ client_ip
  match (cacheGet S st minute_key (.int 0)).res with
  | .error e => .error e
  | .ok minute_count =>
    match pyGeInt minute_count S.RATE_LIMIT_PER_MINUTE with
    | .error e => .error e
    | .ok true => .ok (false, st)
    | .ok false =>
      let hour_key := "rate_limit:hour:" ++ client_ip
      match (cacheGet S st hour_key (.int 0)).res with
      | .error e => .error e
      | .ok hour_count =>
        match pyGeInt hour_count S.RATE_LIMIT_PER_HOUR with
        | .error e => .error e
        | .ok true => .ok (false, st)
        | .ok false => .error .attributeError

/-- `SecurityMiddleware.check_rate_limit` (security.py lines 85-117): the
body above wrapped in `except Exception as e: ...; return True` — any
exception whatsoever results in allowing the request, with the store left
as it was. -/
def check_rate_limit (S : Settings) (st : Store) (client_ip : String) :
    Bool × Store :=
  match check_rate_limit_body S st client_ip with
  | .ok r => r
  | .error _ => (true, st)

/-- `n` sequential `check_rate_limit` calls for the same client, threading
the store; returns the list of allow/deny decisions and the final
store. -/
def checksFrom (S : Settings) (st : Store) (client_ip : String) :
    Nat → List Bool × Store
  | 0 => ([], st)
  | n + 1 =>
    let (b, st1) := check_rate_limit S st client_ip
    let (bs, st2) := checksFrom S st1 client_ip n
    (b :: bs, st2)

/-- The `X-RateLimit-Remaining-Minute` value computed by
`SecurityMiddleware.add_rate_limit_headers` (security.py line 133):
`max(0, settings.RATE_LIMIT_PER_MINUTE - minute_count)` where
`minute_count = get(minute_key, 0)`.  `int - non-int` raises `TypeError`
(caught by that method's own `except Exception`, which then sets no
headers — modelled here as the error branch). -/
def remaining_minute (S : Settings) (st : Store) (client_ip : String) :
    Except PyExc Int :=
  match (cacheGet S st ("rate_limit:minute:" ++ client_ip) (.int 0)).res with
  | .error e => .error e
  | .ok (.int m) => .ok (max 0 (S.RATE_LIMIT_PER_MINUTE - m))
  | .ok (.bool b) => .ok (max 0 (S.RATE_LIMIT_PER_MINUTE - (if b then 1 else 0)))
  | .ok _ => .error .typeError

/-- A positional argument of a decorated endpoint: either a FastAPI
`Request` instance or anything else (`isinstance(arg, Request)` is
false). -/
inductive PyArg where
  | req (r : Request)
  | other (tag : Nat)

/-- The request-discovery loop shared by the decorators (security.py
lines 235-239): the first positional argument that is a `Request`
instance, if any. -/
def firstRequest : List PyArg → Option Request
  | [] => Option.none
  | .req r :: _ => some r
  | .other _ :: rest => firstRequest rest

/-- The `ip_whitelist` decorator's wrapper (security.py lines 231-255):
find the first `Request` among the positional arguments; if none, call the
wrapped function; else resolve the client IP and raise
`HTTPException(403)` when it is not in `allowed_ips`, otherwise call the
wrapped function.  The wrapped function is modelled as a pure function of
the positional arguments. -/
def ip_whitelist {α : Type} (allowed_ips : List String)
    (func : List PyArg → α) (args : List PyArg) : Except PyExc α :=
  match firstRequest args with
  | Option.none => .ok (func args)
  | some request =>
    let client_ip := get_client_ip request
    if client_ip ∈ allowed_ips then .ok (func args)
    else .error (.httpException 403 "Access denied: IP not in whitelist")

/-! ## Helper predicates and lemmas -/

/-- Whether a dict key is a Python string. -/
def isStrKey : PyVal → Bool
  | .str _ => true
  | _ => false

mutual

/-- Values on which the JSON leg of the codec is the identity: `None`,
bools, ints, strings, and lists / string-keyed dicts of such.  Tuples
(which `json.dumps` turns into arrays), non-string dict keys (which it
coerces to strings) and non-JSON-serializable values (which fall back to
pickle) are excluded. -/
def jsonFaithful : PyVal → Bool
  | .none => true
  | .bool _ => true
  | .int _ => true
  | .str _ => true
  | .list xs => jsonFaithfulList xs
  | .tuple _ => false
  | .dict kvs => jsonFaithfulKVs kvs
  | .pybytes _ => false
  | .obj _ => false

/-- `jsonFaithful` on every element of a list. -/
def jsonFaithfulList : List PyVal → Bool
  | [] => true
  | x :: xs => jsonFaithful x && jsonFaithfulList xs

/-- String keys and `jsonFaithful` values throughout a dict. -/
def jsonFaithfulKVs : List (PyVal × PyVal) → Bool
  | [] => true
  | kv :: rest => (isStrKey kv.1 && jsonFaithful kv.2) && jsonFaithfulKVs rest

end

mutual

/-- A `jsonFaithful` value is accepted by `json.dumps`. -/
theorem jsonFaithful_dumpable :
    ∀ v : PyVal, jsonFaithful v = true → jsonDumpable v = true
  | .none, _ => rfl
  | .bool _, _ => rfl
  | .int _, _ => rfl
  | .str _, _ => rfl
  | .list xs, h => jsonFaithfulList_dumpable xs h
  | .dict kvs, h => jsonFaithfulKVs_dumpable kvs h

/-- `jsonFaithful_dumpable`, list form. -/
theorem jsonFaithfulList_dumpable :
    ∀ xs : List PyVal, jsonFaithfulList xs = true → jsonDumpableList xs = true
  | [], _ => rfl
  | x :: xs, h => by
    simp only [jsonFaithfulList, Bool.and_eq_true] at h
    simp only [jsonDumpableList, Bool.and_eq_true]
    exact ⟨jsonFaithful_dumpable x h.1, jsonFaithfulList_dumpable xs h.2⟩

/-- `jsonFaithful_dumpable`, dict form. -/
theorem jsonFaithfulKVs_dumpable :
    ∀ kvs : List (PyVal × PyVal), jsonFaithfulKVs kvs = true → jsonDumpableKVs kvs = true
  | [], _ => rfl
  | kv :: rest, h => by
    simp only [jsonFaithfulKVs, Bool.and_eq_true] at h
    simp only [jsonDumpableKVs, Bool.and_eq_true]
    refine ⟨⟨?_, jsonFaithful_dumpable kv.2 h.1.2⟩, jsonFaithfulKVs_dumpable rest h.2⟩
    revert h
    cases kv.1 <;> simp [isStrKey, jsonKeyOk]

end

mutual

/-- On `jsonFaithful` values the JSON leg of the codec round-trips. -/
theorem json_roundtrip :
    ∀ v : PyVal, jsonFaithful v = true → jsonToPy (pyToJson v) = v
  | .none, _ => rfl
  | .bool _, _ => rfl
  | .int _, _ => rfl
  | .str _, _ => rfl
  | .list xs, h => by
    simp only [pyToJson, jsonToPy]
    exact congrArg PyVal.list (json_roundtrip_list xs h)
  | .dict kvs, h => by
    simp only [pyToJson, jsonToPy]
    exact congrArg PyVal.dict (json_roundtrip_kvs kvs h)

/-- `json_roundtrip`, list form. -/
theorem json_roundtrip_list :
    ∀ xs : List PyVal, jsonFaithfulList xs = true →
      jsonToPyList (pyToJsonList xs) = xs
  | [], _ => rfl
  | x :: xs, h => by
    simp only [jsonFaithfulList, Bool.and_eq_true] at h
    simp only [pyToJsonList, jsonToPyList]
    rw [json_roundtrip x h.1, json_roundtrip_list xs h.2]

/-- `json_roundtrip`, dict form. -/
theorem json_roundtrip_kvs :
    ∀ kvs : List (PyVal × PyVal), jsonFaithfulKVs kvs = true →
      jsonToPyKVs (pyToJsonKVs kvs) = kvs
  | [], _ => rfl
  | kv :: rest, h => by
    simp only [jsonFaithfulKVs, Bool.and_eq_true] at h
    simp only [pyToJsonKVs, jsonToPyKVs]
    rw [json_roundtrip kv.2 h.1.2, json_roundtrip_kvs rest h.2]
    obtain ⟨k, v⟩ := kv
    have hk := h.1.1
    cases k <;> simp_all [isStrKey, keyToString]

end

/-- Reading back any value `json.dumps` accepted gives a non-`None`
value, provided the value itself was not `None`. -/
theorem jsonToPy_pyToJson_ne_none (v : PyVal) (hd : jsonDumpable v = true)
    (hv : v ≠ PyVal.none) : jsonToPy (pyToJson v) ≠ PyVal.none := by
  cases v <;> simp_all [pyToJson, jsonToPy, jsonDumpable]

/-- Writing `k` and reading `k` back: first-match lookup hits the fresh
binding. -/
theorem lookupKV_setKV_self (l : List (String × Entry)) (k : String)
    (e : Entry) : lookupKV (setKV l k e) k = some e := by
  simp [setKV, lookupKV]

/-- `get_cached_or_fetch` does not invoke the compute function when the
cache lookup yields anything other than `None` (a hit, or an exception
escaping `get`). -/
theorem fetch_not_invoked (S : Settings) (st : Store) (key : String)
    (fetch : PyVal) (ttl : Option Int)
    (h : (cacheGet S st key PyVal.none).res ≠ .ok PyVal.none) :
    (get_cached_or_fetch S st key fetch ttl).2 = false := by
  unfold get_cached_or_fetch
  cases hres : (cacheGet S st key PyVal.none).res with
  | error e => rfl
  | ok c => cases c <;> simp_all

/-! ## Concrete fixtures used by the closed theorems below -/

/-- The settings of the spec's rate-limiter scenario: per-minute limit 3,
everything else at its default. -/
def settingsLimit3 : Settings :=
  { defaultSettings with RATE_LIMIT_PER_MINUTE := 3 }

/-- A reachable store holding no keys. -/
def emptyStore : Store := ⟨[], true⟩

/-- An unreachable store (every operation raises `ConnectionError`). -/
def downStore : Store := ⟨[], false⟩

/-- A reachable store whose key `deepsearch:jobs` holds a pickled payload
(what `set` itself writes for any non-JSON-serializable value). -/
def pickledStore : Store :=
  ⟨[("deepsearch:jobs", ⟨Blob.pickle (.obj 0), 3600⟩)], true⟩

/-! ## The claims -/

/-- C1: with the per-minute limit configured to 3, the claim predicts four
sequential checks from one client to yield `allowed = [true, true, true,
false]` and remaining-per-minute `[2, 1, 0, 0]`.  The code instead yields
`allowed = [true, true, true, true]`: `check_rate_limit` calls
`redis_cache.increment`, a method `RedisCache` does not have, so every
passing check dies in `AttributeError`, the blanket `except Exception`
turns that into "allow", and the counters are never created — the store
is left exactly as it was and the remaining-per-minute value stays 3 after
every check.  (The independent-counters half trivially holds: a different
client is also always allowed.) -/
theorem C1_rate_limiter_never_denies :
    (checksFrom settingsLimit3 emptyStore "1.2.3.4" 4).1
      = [true, true, true, true]
  ∧ (checksFrom settingsLimit3 emptyStore "1.2.3.4" 4).2 = emptyStore
  ∧ remaining_minute settingsLimit3 emptyStore "1.2.3.4" = .ok 3
  ∧ (check_rate_limit settingsLimit3 emptyStore "5.6.7.8").1 = true :=
  ⟨rfl, rfl, rfl, rfl⟩

/-- C2: with the backing store unreachable, `check_rate_limit` returns
`True` for every client and raises nothing: `get` swallows the
`ConnectionError` and returns the default 0, both limit comparisons pass
(the configured limits are positive), and the `AttributeError` from the
nonexistent `increment` method is caught by the blanket
`except Exception`, which returns `True`. -/
theorem C2_rate_limit_fail_open (S : Settings) (st : Store)
    (client_ip : String) (hdown : st.up = false)
    (hm : 0 < S.RATE_LIMIT_PER_MINUTE) (hh : 0 < S.RATE_LIMIT_PER_HOUR) :
    check_rate_limit S st client_ip = (true, st) := by
  have h1 : ¬ ((0 : Int) ≥ S.RATE_LIMIT_PER_MINUTE) := by omega
  have h2 : ¬ ((0 : Int) ≥ S.RATE_LIMIT_PER_HOUR) := by omega
  simp [check_rate_limit, check_rate_limit_body, cacheGet, storeGet, hdown,
        pyGeInt, h1, h2]

/-- Witness for C2 at the default settings and an unreachable empty
store. -/
theorem C2_rate_limit_fail_open_witness :
    downStore.up = false
  ∧ check_rate_limit defaultSettings downStore "1.2.3.4" = (true, downStore) :=
  ⟨rfl, C2_rate_limit_fail_open defaultSettings downStore "1.2.3.4" rfl
      (by decide) (by decide)⟩

/-- Counterexample to C3 as stated: a tuple is JSON-serializable (and so
takes the JSON leg of the codec), but `json.dumps` writes it as an array
and `json.loads` reads it back as a list, so `set(k, (1, 2))` followed by
`get(k)` returns `[1, 2]`, which is not equal to `(1, 2)`. -/
theorem C3_roundtrip_fails_on_tuple :
    (cacheGet defaultSettings
        (cacheSet defaultSettings emptyStore "k"
          (.tuple [.int 1, .int 2]) Option.none).st
        "k" PyVal.none).res
      = .ok (.list [.int 1, .int 2])
  ∧ PyVal.list [.int 1, .int 2] ≠ PyVal.tuple [.int 1, .int 2] :=
  ⟨rfl, nofun⟩

/-- C3 amended: on a working store, `set(k, v)` followed by `get(k)`
returns a value equal to `v` for every `v` on which the JSON leg of the
codec is the identity — `None`, bools, ints, strings, and lists /
string-keyed dicts built from them.  (Tuples come back as lists,
non-string dict keys come back as strings, and values that fall back to
pickle make the subsequent `get` raise `UnicodeDecodeError` — see C5 — so
none of those round-trip.) -/
theorem C3_roundtrip_json_faithful (S : Settings) (st : Store)
    (key : String) (v dflt : PyVal) (hup : st.up = true)
    (httl : 0 < S.CACHE_TTL) (hv : jsonFaithful v = true) :
    (cacheGet S (cacheSet S st key v Option.none).st key dflt).res = .ok v := by
  have hd : jsonDumpable v = true := jsonFaithful_dumpable v hv
  have ht : ¬ (S.CACHE_TTL ≤ 0) := by omega
  simp [cacheSet, cacheGet, encodeValue, hd, storeSetex, hup, ht, storeGet,
        lookupKV_setKV_self, deserializeChain, jsonLoads, json_roundtrip v hv]

/-- Witness for C3 (amended) at a string-keyed dict. -/
theorem C3_roundtrip_json_faithful_witness :
    jsonFaithful (.dict [(.str "a", .int 1), (.str "b", .list [.str "x"])])
      = true
  ∧ (cacheGet defaultSettings
        (cacheSet defaultSettings emptyStore "k"
          (.dict [(.str "a", .int 1), (.str "b", .list [.str "x"])])
          Option.none).st
        "k" PyVal.none).res
      = .ok (.dict [(.str "a", .int 1), (.str "b", .list [.str "x"])]) :=
  ⟨rfl, C3_roundtrip_json_faithful defaultSettings emptyStore "k"
      (.dict [(.str "a", .int 1), (.str "b", .list [.str "x"])])
      PyVal.none rfl (by decide) rfl⟩

/-- Counterexample to C4 as stated: on a working store, `ttl` of an
absent key returns `-2` (the Redis `TTL` reply for a missing key, passed
through unchanged by lines 170-180), not the claimed `-1`. -/
theorem C4_ttl_absent_key_counterexample :
    (cacheTtl defaultSettings emptyStore "jobs").res = -2
  ∧ ((-2 : Int) ≠ -1) :=
  ⟨rfl, by decide⟩

/-- C4 amended: `ttl(k)` returns `-1` on a backend/connection error, and
`-2` (not `-1`) when the key is absent from a working store. -/
theorem C4_ttl_error_and_absent (S : Settings) (st : Store) (key : String) :
    (st.up = false → (cacheTtl S st key).res = -1)
  ∧ (st.up = true → lookupKV st.data (_make_key S key) = Option.none →
      (cacheTtl S st key).res = -2) := by
  refine ⟨fun h => ?_, fun h habs => ?_⟩
  · simp [cacheTtl, storeTtl, h]
  · simp [cacheTtl, storeTtl, h, habs]

/-- Witness for C4 (amended): the error leg on an unreachable store and
the absent-key leg on a working empty store. -/
theorem C4_ttl_error_and_absent_witness :
    (cacheTtl defaultSettings downStore "jobs").res = -1
  ∧ (cacheTtl defaultSettings emptyStore "jobs").res = -2 :=
  ⟨(C4_ttl_error_and_absent defaultSettings downStore "jobs").1 rfl,
   (C4_ttl_error_and_absent defaultSettings emptyStore "jobs").2 rfl rfl⟩

/-- C5 is contradicted by the code: for a stored pickle payload (which is
exactly what `set` writes for any non-JSON-serializable value), `get`
raises `UnicodeDecodeError` to its caller instead of falling through to
the pickle stage.  `json.loads` UTF-8-decodes `bytes` input before
parsing; every default-protocol pickle starts with byte `0x80`, so that
decode raises `UnicodeDecodeError`, which is caught neither by the inner
`except (json.JSONDecodeError, TypeError)` nor by the outer
`except (RedisError, ConnectionError)`. -/
theorem C5_get_raises_on_pickled_value :
    (cacheGet defaultSettings pickledStore "jobs" PyVal.none).res
      = .error .unicodeDecodeError
  ∧ deserializeChain (Blob.pickle (.obj 0)) = .error .unicodeDecodeError :=
  ⟨rfl, rfl⟩

/-- Counterexample to C6 as stated: `set(k, v, ttl=0)` does not write the
entry with TTL `0`.  Line 126 reads `ttl = ttl or settings.CACHE_TTL`, and
Python's `or` treats `0` as falsy, so the caller-supplied `0` is silently
replaced by the configured default (3600): the write succeeds and the
entry carries TTL 3600, which is not the given `0`. -/
theorem C6_set_ttl_zero_counterexample :
    (cacheSet defaultSettings emptyStore "k" (.int 5) (some 0)).res = true
  ∧ lookupKV (cacheSet defaultSettings emptyStore "k" (.int 5)
        (some 0)).st.data "deepsearch:k"
      = some ⟨.json (.num 5), 3600⟩
  ∧ ((3600 : Int) ≠ 0) :=
  ⟨rfl, rfl, by decide⟩

/-- C6 amended: on a working store, `set(k, v, ttl)` writes the codec
encoding of `v` with TTL equal to `ttl` when a *non-zero* (positive) `ttl`
is given, and with the configured default TTL when `ttl` is omitted; a
caller-supplied `ttl` of `0` falls back to the default as well, because
line 126 uses Python's falsy-`or` rather than an `is None` test.  In both
stated cases the call returns `True` (the write succeeded). -/
theorem C6_set_ttl_amended (S : Settings) (st : Store) (key : String)
    (v : PyVal) (hup : st.up = true) :
    (∀ t : Int, 0 < t →
        (cacheSet S st key v (some t)).res = true
      ∧ lookupKV (cacheSet S st key v (some t)).st.data (_make_key S key)
          = some ⟨encodeValue v, t⟩)
  ∧ (0 < S.CACHE_TTL →
        (cacheSet S st key v Option.none).res = true
      ∧ lookupKV (cacheSet S st key v Option.none).st.data (_make_key S key)
          = some ⟨encodeValue v, S.CACHE_TTL⟩) := by
  constructor
  · intro t htpos
    have h0 : ¬ (t = 0) := by omega
    have h1 : ¬ (t ≤ 0) := by omega
    constructor <;>
      simp [cacheSet, storeSetex, hup, h0, h1, lookupKV_setKV_self]
  · intro hc
    have h1 : ¬ (S.CACHE_TTL ≤ 0) := by omega
    constructor <;>
      simp [cacheSet, storeSetex, hup, h1, lookupKV_setKV_self]

/-- Witness for C6 (amended) with an explicit positive TTL. -/
theorem C6_set_ttl_amended_witness :
    emptyStore.up = true ∧ (0 : Int) < 5
  ∧ (cacheSet defaultSettings emptyStore "k" (.int 7) (some 5)).res = true
  ∧ lookupKV (cacheSet defaultSettings emptyStore "k" (.int 7)
        (some 5)).st.data (_make_key defaultSettings "k")
      = some ⟨encodeValue (.int 7), 5⟩ :=
  ⟨rfl, by decide,
   ((C6_set_ttl_amended defaultSettings emptyStore "k" (.int 7) rfl).1
     5 (by decide)).1,
   ((C6_set_ttl_amended defaultSettings emptyStore "k" (.int 7) rfl).1
     5 (by decide)).2⟩

/-- C7: every cache-manager operation touches the store only through the
namespaced key: the raw key (or pattern) string it hands the store client
is `CACHE_PREFIX ++ logical_key` — built by `_make_key`, the one place the
namespace is applied (callers such as `check_rate_limit` pass plain
logical keys like `"rate_limit:minute:" ++ ip`); `clear_all`, which takes
no caller key, uses the namespace-wide pattern `CACHE_PREFIX ++ "*"`. -/
theorem C7_namespace_applied_on_every_operation (S : Settings) (st : Store)
    (key pattern : String) (v dflt : PyVal) (ttl : Option Int) (t : Int) :
    (cacheGet S st key dflt).touched = [S.CACHE_PREFIX ++ key]
  ∧ (cacheSet S st key v ttl).touched = [S.CACHE_PREFIX ++ key]
  ∧ (cacheDelete S st key).touched = [S.CACHE_PREFIX ++ key]
  ∧ (cacheExists S st key).touched = [S.CACHE_PREFIX ++ key]
  ∧ (cacheExpire S st key t).touched = [S.CACHE_PREFIX ++ key]
  ∧ (cacheTtl S st key).touched = [S.CACHE_PREFIX ++ key]
  ∧ (cacheClearPattern S st pattern).touched = [S.CACHE_PREFIX ++ pattern]
  ∧ (cacheClearAll S st).touched = [S.CACHE_PREFIX ++ "*"] :=
  ⟨rfl, rfl, rfl, rfl, rfl, rfl, rfl, rfl⟩

/-- C8: `get_client_ip` resolves the client identifier exactly as the
claim's cascade states it, for every request whose two IP headers are not
present-but-empty (the code tests Python truthiness, under which an empty
header value counts as absent; HTTP clients do not send empty values for
these headers). -/
theorem C8_client_ip_resolution (req : Request)
    (hx : req.x_forwarded_for ≠ some "") (hr : req.x_real_ip ≠ some "") :
    get_client_ip req = claimClientIp req := by
  obtain ⟨xf, xr, cl⟩ := req
  simp only at hx hr
  cases xf with
  | some s =>
    have hs : s ≠ "" := fun h => hx (by rw [h])
    simp [get_client_ip, claimClientIp, truthy, hs]
  | none =>
    cases xr with
    | some s =>
      have hs : s ≠ "" := fun h => hr (by rw [h])
      simp [get_client_ip, claimClientIp, truthy, hs]
    | none => cases cl <;> simp [get_client_ip, claimClientIp, truthy]

/-- Witness for C8: no IP headers, a transport-level peer address. -/
theorem C8_client_ip_resolution_witness :
    (Option.none : Option String) ≠ some ""
  ∧ get_client_ip ⟨Option.none, Option.none, some "9.9.9.9"⟩
      = claimClientIp ⟨Option.none, Option.none, some "9.9.9.9"⟩ :=
  ⟨by decide,
   C8_client_ip_resolution ⟨Option.none, Option.none, some "9.9.9.9"⟩
     (by decide) (by decide)⟩

/-- Counterexample to C9 as stated: the pure compute function returning
`None` is re-invoked on every call.  `get_cached_or_fetch` stores the
`None`, but the next lookup cannot distinguish the stored JSON `null` from
a miss (`if cached_value is not None`), so both sequential calls invoke
the function: 2 invocations, not at most 1. -/
theorem C9_memoize_none_counterexample :
    get_cached_or_fetch_twice defaultSettings emptyStore "k" PyVal.none
        Option.none = 2
  ∧ ¬ (get_cached_or_fetch_twice defaultSettings emptyStore "k" PyVal.none
        Option.none ≤ 1) :=
  ⟨rfl, by decide⟩

/-- C9 amended: on a working store (with a positive configured default
TTL), two sequential `get_cached_or_fetch(key, fn)` calls with `fn` pure
invoke `fn` at most once across the two calls, provided `fn`'s result is
not `None` — a `None` result is indistinguishable from a miss and is
recomputed on every call. -/
theorem C9_memoize_at_most_once (S : Settings) (st : Store) (key : String)
    (v : PyVal) (hup : st.up = true) (httl : 0 < S.CACHE_TTL)
    (hv : v ≠ PyVal.none) :
    get_cached_or_fetch_twice S st key v Option.none ≤ 1 := by
  unfold get_cached_or_fetch_twice
  cases hres : (cacheGet S st key PyVal.none).res with
  | error e =>
    have hc1 : get_cached_or_fetch S st key v Option.none
        = (.error e, false) := by
      unfold get_cached_or_fetch; rw [hres]
    simp [hc1]
  | ok c =>
    cases c with
    | none =>
      have hc1 : get_cached_or_fetch S st key v Option.none
          = (.ok (v, (cacheSet S st key v Option.none).st), true) := by
        unfold get_cached_or_fetch; rw [hres]
      have ht : ¬ (S.CACHE_TTL ≤ 0) := by omega
      have hset : (cacheSet S st key v Option.none).st
          = Store.mk
              (setKV st.data (_make_key S key)
                (Entry.mk (encodeValue v) S.CACHE_TTL))
              st.up := by
        simp [cacheSet, storeSetex, hup, ht]
      have hget2 : (cacheGet S ((cacheSet S st key v Option.none).st) key
            PyVal.none).res = deserializeChain (encodeValue v) := by
        rw [hset]
        simp [cacheGet, storeGet, hup, lookupKV_setKV_self]
      have hne : deserializeChain (encodeValue v) ≠ .ok PyVal.none := by
        by_cases hd : jsonDumpable v = true
        · simp only [encodeValue, hd, if_true, deserializeChain, jsonLoads]
          simp [jsonToPy_pyToJson_ne_none v hd hv]
        · simp [encodeValue, hd, deserializeChain, jsonLoads]
      have hi2 : (get_cached_or_fetch S ((cacheSet S st key v
            Option.none).st) key v Option.none).2 = false :=
        fetch_not_invoked S _ key v Option.none (by rw [hget2]; exact hne)
      simp [hc1, hi2]
    | bool b =>
      have hc1 : get_cached_or_fetch S st key v Option.none
          = (.ok (.bool b, st), false) := by
        unfold get_cached_or_fetch; rw [hres]
      have hi2 : (get_cached_or_fetch S st key v Option.none).2 = false := by
        rw [hc1]
      simp [hc1]
    | int n =>
      have hc1 : get_cached_or_fetch S st key v Option.none
          = (.ok (.int n, st), false) := by
        unfold get_cached_or_fetch; rw [hres]
      simp [hc1]
    | str s =>
      have hc1 : get_cached_or_fetch S st key v Option.none
          = (.ok (.str s, st), false) := by
        unfold get_cached_or_fetch; rw [hres]
      simp [hc1]
    | list xs =>
      have hc1 : get_cached_or_fetch S st key v Option.none
          = (.ok (.list xs, st), false) := by
        unfold get_cached_or_fetch; rw [hres]
      simp [hc1]
    | tuple xs =>
      have hc1 : get_cached_or_fetch S st key v Option.none
          = (.ok (.tuple xs, st), false) := by
        unfold get_cached_or_fetch; rw [hres]
      simp [hc1]
    | dict kvs =>
      have hc1 : get_cached_or_fetch S st key v Option.none
          = (.ok (.dict kvs, st), false) := by
        unfold get_cached_or_fetch; rw [hres]
      simp [hc1]
    | pybytes bs =>
      have hc1 : get_cached_or_fetch S st key v Option.none
          = (.ok (.pybytes bs, st), false) := by
        unfold get_cached_or_fetch; rw [hres]
      simp [hc1]
    | obj tag =>
      have hc1 : get_cached_or_fetch S st key v Option.none
          = (.ok (.obj tag, st), false) := by
        unfold get_cached_or_fetch; rw [hres]
      simp [hc1]

/-- Witness for C9 (amended): an int-valued compute function on an empty
working store is invoked exactly once across two calls. -/
theorem C9_memoize_at_most_once_witness :
    emptyStore.up = true
  ∧ get_cached_or_fetch_twice defaultSettings emptyStore "k" (.int 7)
      Option.none ≤ 1 :=
  ⟨rfl, C9_memoize_at_most_once defaultSettings emptyStore "k" (.int 7)
      rfl (by decide) nofun⟩

/-- C10: the `ip_whitelist` wrapper calls the wrapped operation untouched
when no `Request` appears among the positional arguments, and raises the
403 authorization error exactly when a `Request` is present (the first
one found) and its resolved client identifier is not in the allowed
list. -/
theorem C10_ip_whitelist_behavior {α : Type} (allowed_ips : List String)
    (func : List PyArg → α) (args : List PyArg) :
    (firstRequest args = Option.none →
      ip_whitelist allowed_ips func args = .ok (func args))
  ∧ (∀ r, firstRequest args = some r →
      (get_client_ip r ∈ allowed_ips →
        ip_whitelist allowed_ips func args = .ok (func args))
    ∧ (get_client_ip r ∉ allowed_ips →
        ip_whitelist allowed_ips func args
          = .error (.httpException 403
              "Access denied: IP not in whitelist"))) := by
  refine ⟨fun h => ?_, fun r h => ⟨fun hin => ?_, fun hout => ?_⟩⟩
  · simp [ip_whitelist, h]
  · simp [ip_whitelist, h, hin]
  · simp [ip_whitelist, h, hout]

/-- Witness for C10: a call with no request among the positional
arguments goes straight through to the wrapped function. -/
theorem C10_ip_whitelist_behavior_witness :
    firstRequest [PyArg.other 0] = Option.none
  ∧ ip_whitelist ["1.2.3.4"] (fun l => l.length) [PyArg.other 0]
      = .ok 1 :=
  ⟨rfl,
   (C10_ip_whitelist_behavior ["1.2.3.4"] (fun l => l.length)
     [PyArg.other 0]).1 rfl⟩

end DeepSearch
